import Mathlib

/-!
Verification of the tistel image-library tool (shallow embedding).

The Python source is embedded as executable Lean definitions:

* the tri-state tag filter (src/tistel/thumb_view.py, FilterProxyModel, and
  src/tistel/tistel.py, MainWindow.update_tag_filter);
* PNG tEXt chunk construction and thumbnail byte splicing
  (src/tistel/image_loading.py, png_text_chunk and generate_thumbnail);
* the metadata index scan (src/tistel/image_loading.py, Indexer.index_images)
  and the cache filtering in ThumbView.load_index (src/tistel/thumb_view.py);
* the tag-edit batch (src/tistel/tistel.py, show_tagging_dialog) and the
  external tag writer (src/tistel/jfti.py, set_tags);
* metadata extraction (src/tistel/jfti.py, read_tags and dimensions, and
  src/tistel/image_loading.py, extract_metadata);
* the thumbnail loader (src/tistel/image_loading.py, ImageLoader.load_image).

External collaborators (Qt image codecs, the exiv2 process, the filesystem,
zlib via an explicit CRC-32 implementation) appear as oracle parameters;
tags are finite sets of strings, file paths are strings, byte strings are
lists of naturals, and timestamps are integers (Python floats enter the
embedded code only through equality comparisons and through a prior
truncation to integer seconds).
-/

/-- Tri-state of one tag in the filter, from src/tistel/shared.py
(class TagState): whitelisted, blacklisted or default. -/
inductive TagState where
  | WHITELISTED
  | BLACKLISTED
  | DEFAULT
deriving DecidableEq, Repr

/-- The row filter of src/tistel/thumb_view.py
(FilterProxyModel.filterAcceptsRow, lines 100-108): the row is rejected when
(untagged whitelisted and the image has tags) or (untagged blacklisted and it
has none) or (the whitelist is truthy, i.e. non-empty, and is not a subset of
the tags) or (the blacklist is truthy and is not disjoint from the tags). -/
def filterAcceptsRow (tag_whitelist tag_blacklist : Finset String)
    (untagged_state : TagState) (tags : Finset String) : Bool :=
  if (untagged_state = TagState.WHITELISTED ∧ tags ≠ ∅)
      ∨ (untagged_state = TagState.BLACKLISTED ∧ tags = ∅)
      ∨ (tag_whitelist ≠ ∅ ∧ ¬ tag_whitelist ⊆ tags)
      ∨ (tag_blacklist ≠ ∅ ∧ ¬ (tag_blacklist ∩ tags = ∅))
  then false else true

/-- The per-item visibility decision of src/tistel/tistel.py
(MainWindow.update_tag_filter, lines 643-646): an item is hidden under the
same fourfold condition as FilterProxyModel.filterAcceptsRow. -/
def updateTagFilterHides (whitelist blacklist : Finset String)
    (untagged_state : TagState) (tags : Finset String) : Bool :=
  if (untagged_state = TagState.WHITELISTED ∧ tags ≠ ∅)
      ∨ (untagged_state = TagState.BLACKLISTED ∧ tags = ∅)
      ∨ (whitelist ≠ ∅ ∧ ¬ whitelist ⊆ tags)
      ∨ (blacklist ≠ ∅ ∧ ¬ (blacklist ∩ tags = ∅))
  then true else false

/-- One cached record of src/tistel/shared.py (CachedImageData): tags, byte
size, pixel dimensions (with the (-1,-1) unknown sentinel, hence integers)
and the stat timestamps. -/
structure CachedImageData where
  tags : List String
  size : Nat
  w : Int
  h : Int
  mtime : Int
  ctime : Int
deriving DecidableEq, Repr

/-- The live stat values of one file, as used by Indexer.index_images. -/
structure FileStat where
  st_mtime : Int
  st_size : Nat
  st_ctime : Int
deriving DecidableEq, Repr

/-- Outcome of one extract_metadata call as seen by the scan loop of
src/tistel/image_loading.py (Indexer.index_images, lines 216-231): success
with tags and dimensions, an OSError, or any other exception. -/
inductive ExtractResult where
  | ok (tags : List String) (w h : Int)
  | oserror
  | failure
deriving DecidableEq, Repr

/-- The body of the indexing loop of src/tistel/image_loading.py
(Indexer.index_images, lines 207-231) for one file: when the path is cached
and both stat mtime and size match the record, continue; otherwise call the
extractor (the call tally records the number of extractor invocations per
path); on OSError keep the cache as it was, on any other exception only log,
and on success store a fresh record built from the extraction and the stat. -/
def indexImageStep (extractor : String → ExtractResult) (statOf : String → FileStat)
    (cache : String → Option CachedImageData) (calls : String → Nat) (path : String) :
    (String → Option CachedImageData) × (String → Nat) :=
  let stat := statOf path
  let unchanged : Bool :=
    match cache path with
    | some r => stat.st_mtime = r.mtime ∧ stat.st_size = r.size
    | none => false
  if unchanged then (cache, calls)
  else
    let calls2 : String → Nat := fun q => if q = path then calls q + 1 else calls q
    match extractor path with
    | ExtractResult.oserror => (cache, calls2)
    | ExtractResult.failure => (cache, calls2)
    | ExtractResult.ok tags w h =>
        (fun q => if q = path then
            some { tags := tags, size := stat.st_size, w := w, h := h,
                   mtime := stat.st_mtime, ctime := stat.st_ctime }
          else cache q,
         calls2)

/-- The whole indexing pass of Indexer.index_images over the list of image
paths found on disk, starting from the loaded cache; the second component
tallies extractor invocations per path.  The resulting map is what
cache.save() persists at the end of the scan. -/
def indexImages (extractor : String → ExtractResult) (statOf : String → FileStat)
    (initCache : String → Option CachedImageData) (files : List String) :
    (String → Option CachedImageData) × (String → Nat) :=
  files.foldl (fun acc p => indexImageStep extractor statOf acc.1 acc.2 p)
    (initCache, fun _ => 0)

/-- The cache traversal of src/tistel/thumb_view.py (ThumbView.load_index,
lines 475-499): entries whose path no longer exists are deleted from the
in-memory cache copy and skipped; entries not under any active root are
skipped but kept; the remaining entries become view items.  The first
component is the item list, the second the surviving in-memory image map
(this copy is never written back to disk by load_index). -/
def loadIndexScan (fsExists underRoot : String → Bool) :
    List (String × CachedImageData) →
    List (String × CachedImageData) × List (String × CachedImageData)
  | [] => ([], [])
  | entry :: rest =>
      if fsExists entry.1 then
        let r := loadIndexScan fsExists underRoot rest
        (if underRoot entry.1 then entry :: r.1 else r.1, entry :: r.2)
      else loadIndexScan fsExists underRoot rest

/-- set_rotation of src/tistel/image_loading.py (lines 21-32): the QTransform
is modelled by its rotation angle in degrees; orientation 8 rotates left
(-90), 6 rotates right (90), 3 rotates 180, anything else leaves the
identity (angle 0). -/
def set_rotation (orientation : Int) : Int :=
  if orientation = 8 then -90
  else if orientation = 6 then 90
  else if orientation = 3 then 180
  else 0

/-- try_to_get_orientation of src/tistel/image_loading.py (lines 71-89),
with the filesystem and the parsed exiv2 orientation output as oracles: None
when the queried path does not exist, otherwise whatever the exiv2 query for
that path yields (None on a failed call or unparsable output, both
non-fatal). -/
def try_to_get_orientation (fsExists : String → Bool)
    (exifOrientation : String → Option Int) (path : String) : Option Int :=
  if fsExists path then exifOrientation path else none

/-- The rotation step of generate_thumbnail (src/tistel/image_loading.py,
lines 99-104): the orientation is queried for thumb_path (not for
image_path, which is also in scope); a truthy (non-zero, non-None)
orientation with a non-identity transform rotates the pixmap.  The result is
the rotation angle actually applied to the decoded source pixels. -/
def generateThumbnailRotation (fsExists : String → Bool)
    (exifOrientation : String → Option Int) (thumb_path image_path : String) : Int :=
  match try_to_get_orientation fsExists exifOrientation thumb_path with
  | some orientation => if orientation ≠ 0 then set_rotation orientation else 0
  | none => 0

/-- Result of one exiv2 tag-writing invocation as seen by set_tags of
src/tistel/jfti.py: normal termination with (possibly empty) warning output,
or a CalledProcessError carrying stderr. -/
inductive Exiv2WriteResult where
  | ok (warnings : String)
  | failed (stderr : String)
deriving DecidableEq, Repr

/-- set_tags of src/tistel/jfti.py (lines 82-99) with the exiv2 process as
an oracle: a CalledProcessError becomes an ImageError (modelled as
Except.error with the formatted message, the repr-quoting of the f-string
elided); success merely prints any warnings and returns. -/
def set_tags (exiv2 : String → Finset String → Exiv2WriteResult)
    (fname : String) (tags : Finset String) : Except String Unit :=
  match exiv2 fname tags with
  | Exiv2WriteResult.ok _ => Except.ok ()
  | Exiv2WriteResult.failed stderr =>
      Except.error ("running exiv2 failed on image " ++ fname ++ "!" ++ "stderr: " ++ stderr)

/-- The tagging loop of src/tistel/tistel.py (show_tagging_dialog, lines
478-492) over the selected items (path plus pre-edit tag set), threading the
accumulated per-tag signed delta (the new_tag_count Counter; keys never
touched count 0) and the updated_files assignments.  The per-image new tags
are (old union tags_to_add) minus tags_to_remove; unchanged images are
skipped.  An ImageError raised by jfti.set_tags aborts the loop at once (the
exception propagates out of the batch), leaving behind only the deltas and
updates gathered before the failure; cancellation through the progress
dialog is not modelled. -/
def showTaggingLoop (exiv2 : String → Finset String → Exiv2WriteResult)
    (tags_to_add tags_to_remove : Finset String) :
    List (String × Finset String) → (String → Int) → List (String × Finset String) →
    ((String → Int) × List (String × Finset String)) × Option String
  | [], new_tag_count, updated_files => ((new_tag_count, updated_files), none)
  | (path, old_tags) :: rest, new_tag_count, updated_files =>
      let new_tags := (old_tags ∪ tags_to_add) \ tags_to_remove
      if new_tags = old_tags then
        showTaggingLoop exiv2 tags_to_add tags_to_remove rest new_tag_count updated_files
      else
        let added_tags := new_tags \ old_tags
        let removed_tags := old_tags \ new_tags
        let counts2 : String → Int := fun t =>
          new_tag_count t + (if t ∈ added_tags then 1 else 0)
            - (if t ∈ removed_tags then 1 else 0)
        match set_tags exiv2 path new_tags with
        | Except.error e => ((counts2, updated_files), some e)
        | Except.ok _ =>
            showTaggingLoop exiv2 tags_to_add tags_to_remove rest counts2
              (updated_files ++ [(path, new_tags)])

/-- The whole tag-edit application of show_tagging_dialog: run the loop from
an empty Counter and no updated files. -/
def applyTagEdit (exiv2 : String → Finset String → Exiv2WriteResult)
    (selection : List (String × Finset String))
    (tags_to_add tags_to_remove : Finset String) :
    ((String → Int) × List (String × Finset String)) × Option String :=
  showTaggingLoop exiv2 tags_to_add tags_to_remove selection (fun _ => 0) []

/-- The created_tags computation of show_tagging_dialog (line 471): tags to
add that are absent from the pre-edit vocabulary. -/
def createdTags (tag_count_keys tags_to_add : Finset String) : Finset String :=
  tags_to_add \ tag_count_keys

/-- Result of one exiv2 print invocation (subprocess.check_output) as seen by
jfti.read_tags and jfti.dimensions: normal termination with its stdout, or a
CalledProcessError carrying the failed process's stdout and stderr. -/
inductive ProcResult where
  | ok (stdout : String)
  | failed (stdout stderr : String)
deriving DecidableEq, Repr

/-- The Python blank test (not result.strip()) used by jfti.read_tags: the
string consists of whitespace only. -/
def isBlank (s : String) : Bool := s.data.all Char.isWhitespace

/-- read_tags of src/tistel/jfti.py (lines 64-79), with the exiv2 XMP dump
and the XML extraction of the dc:subject bag items as oracles (the oracle
returns none when ET.fromstring or the tree queries raise).  A
CalledProcessError is swallowed with pass, so the generator yields nothing;
whitespace-only output also yields nothing; otherwise a failing XML parse
raises out of the generator, and a successful parse yields the tags. -/
def read_tags (exiv2PrintXmp : String → ProcResult)
    (parseXmpBagItems : String → Option (List String)) (fname : String) :
    Except String (List String) :=
  match exiv2PrintXmp fname with
  | ProcResult.failed _ _ => Except.ok []
  | ProcResult.ok result =>
      if isBlank result then Except.ok []
      else
        match parseXmpBagItems result with
        | some tags => Except.ok tags
        | none => Except.error "XML parse error"

/-- dimensions of src/tistel/jfti.py (lines 50-61), with the exiv2 summary
print and the scan for the first line matching the Image size regex as
oracles: on a CalledProcessError the failed call's stdout is used instead,
and when no line matches, the (-1, -1) sentinel is returned. -/
def dimensions (exiv2PrintSize : String → ProcResult)
    (firstSizeLine : String → Option (Int × Int)) (fname : String) : Int × Int :=
  let text := match exiv2PrintSize fname with
    | ProcResult.ok t => t
    | ProcResult.failed stdout _ => stdout
  match firstSizeLine text with
  | some wh => wh
  | none => (-1, -1)

/-- extract_metadata of src/tistel/image_loading.py (lines 35-42): sort the
tags from jfti.read_tags (an exception there is logged and re-raised), then
pair them with jfti.dimensions. -/
def extract_metadata (exiv2PrintXmp : String → ProcResult)
    (parseXmpBagItems : String → Option (List String))
    (exiv2PrintSize : String → ProcResult)
    (firstSizeLine : String → Option (Int × Int)) (path : String) :
    Except String (List String × (Int × Int)) :=
  match read_tags exiv2PrintXmp parseXmpBagItems path with
  | Except.error e => Except.error e
  | Except.ok tags =>
      Except.ok (tags.mergeSort (fun a b => a ≤ b),
        dimensions exiv2PrintSize firstSizeLine path)

/-- UTF-8 bytes of an ASCII string literal. -/
def strBytes (s : String) : List Nat := s.data.map Char.toNat

/-- The PNG tEXt chunk type bytes. -/
def tEXtType : List Nat := strBytes "tEXt"

/-- The Thumb::MTime keyword bytes. -/
def thumbMTimeKey : List Nat := strBytes "Thumb::MTime"

/-- The Thumb::URI keyword bytes. -/
def thumbURIKey : List Nat := strBytes "Thumb::URI"

/-- The Software keyword bytes. -/
def softwareKey : List Nat := strBytes "Software"

/-- The fixed Software chunk value written by generate_thumbnail. -/
def softwareValue : List Nat := strBytes "imgview"

/-- Big-endian 4-byte encoding, struct.pack with format >I (the divisors are
2 to the 24th, 16th and 8th powers). -/
def be32 (n : Nat) : List Nat :=
  [n / 16777216 % 256, n / 65536 % 256, n / 256 % 256, n % 256]

/-- Big-endian 4-byte read of the first four bytes, struct.unpack with
format >I. -/
def readBE32 : List Nat → Nat
  | a :: b :: c :: d :: _ => ((a * 256 + b) * 256 + c) * 256 + d
  | _ => 0

/-- One bit step of the reflected CRC-32 used by zlib: shift the register
right, xoring in the reversed polynomial when the low bit was set. -/
def crc32Round (c : Nat) : Nat :=
  if c % 2 = 1 then Nat.xor (c / 2) 0xEDB88320 else c / 2

/-- Fold one byte into the CRC-32 register: xor it in, then eight bit
steps. -/
def crc32Byte (c b : Nat) : Nat := crc32Round^[8] (Nat.xor c b)

/-- zlib.crc32 of a byte string: the standard reflected CRC-32 with initial
register and final xor 0xFFFFFFFF. -/
def crc32 (data : List Nat) : Nat :=
  Nat.xor (data.foldl crc32Byte 0xFFFFFFFF) 0xFFFFFFFF

/-- Decimal ASCII bytes of a natural number (str of a Python int). -/
def decimalBytes (n : Nat) : List Nat := (Nat.toDigits 10 n).map Char.toNat

/-- png_text_chunk of src/tistel/image_loading.py (lines 45-49): the length
field (4 bytes big-endian, the header length minus the 4 type bytes, i.e.
counting keyword + NUL + value), then tEXt, keyword, NUL, value, then the
CRC-32 over type + keyword + NUL + value (4 bytes big-endian). -/
def png_text_chunk (name text : List Nat) : List Nat :=
  let header_and_data := tEXtType ++ name ++ 0 :: text
  be32 (header_and_data.length - 4) ++ header_and_data ++ be32 (crc32 header_and_data)

/-- The chunk-splicing tail of generate_thumbnail
(src/tistel/image_loading.py, lines 111-121): read the first chunk's length
from bytes 8-11 of the encoded PNG, set the insertion offset to
8 + 12 + that length, and insert the Thumb::MTime, Thumb::URI and Software
tEXt chunks there, in that order.  mtimeSec models
int(image_path.stat().st_mtime), the source file's mtime in whole seconds
(the floor of the nonnegative float timestamp). -/
def spliceThumbChunks (data : List Nat) (mtimeSec : Nat) (uri_path : List Nat) :
    List Nat :=
  let first_chunk_length := readBE32 (data.drop 8)
  let offset := 8 + 12 + first_chunk_length
  let mtime := png_text_chunk thumbMTimeKey (decimalBytes mtimeSec)
  let uri := png_text_chunk thumbURIKey uri_path
  let software := png_text_chunk softwareKey softwareValue
  data.take offset ++ mtime ++ uri ++ software ++ data.drop offset

/-- A PNG chunk-stream parser, the chunk-parse referee of the round-trip
property: repeatedly read a 4-byte big-endian length, the 4-byte type, the
payload of that length and the 4-byte CRC, collecting (type, payload) pairs;
none on a malformed stream.  The fuel only bounds the recursion: one unit
per chunk suffices. -/
def parseChunks (fuel : Nat) (data : List Nat) :
    Option (List (List Nat × List Nat)) :=
  if data.isEmpty then some []
  else
    match fuel with
    | 0 => none
    | fuel + 1 =>
        let len := readBE32 data
        if data.length < 12 + len then none
        else
          match parseChunks fuel (data.drop (12 + len)) with
          | some rest => some (((data.drop 4).take 4, (data.drop 8).take len) :: rest)
          | none => none

/-- Split a tEXt payload at its first NUL byte into keyword and text. -/
def splitAtNul : List Nat → Option (List Nat × List Nat)
  | [] => none
  | b :: rest =>
      if b = 0 then some ([], rest)
      else
        match splitAtNul rest with
        | some kv => some (b :: kv.1, kv.2)
        | none => none

/-- The keyword/value pairs of the tEXt chunks in a parsed chunk list. -/
def textChunks (chunks : List (List Nat × List Nat)) : List (List Nat × List Nat) :=
  chunks.filterMap fun tp => if tp.1 = tEXtType then splitAtNul tp.2 else none

/-- Icons are opaque: either the fixed dark-red failure icon of
ImageLoader.__init__, or the icon make_thumb builds from a thumbnail
file. -/
inductive Icon where
  | fail
  | thumb (path : String)
deriving DecidableEq, Repr

/-- The external collaborators of the thumbnail pipeline as oracles: Qt
decoding by the extension-implied codec, decoding with an explicit format,
the first 8 bytes of a file, the lower-cased suffix, the parsed exiv2
orientation per path, rotation of a pixmap by an angle, scaling to the
thumb box plus copying and PNG re-encoding of a pixmap, the integer source
mtime, the md5-derived thumbnail file name, and the percent-encoded file URI
bytes per source path. -/
structure ThumbEnv where
  decode : String → Option Nat
  decodeFmt : String → String → Option Nat
  read8 : String → List Nat
  suffix : String → String
  exifOrientation : String → Option Int
  rotate : Int → Nat → Nat
  encodeScaledPNG : Nat → List Nat
  mtimeOf : String → Nat
  thumbName : String → String
  uriOf : String → List Nat

/-- IMAGE_EXTS of src/tistel/jfti.py (line 11). -/
def IMAGE_EXTS : List String := [".png", ".jpg", ".gif"]

/-- IMAGE_MAGICS of src/tistel/jfti.py (lines 12-14): the PNG signature,
the JPEG SOI marker, and the GIF87a / GIF89a headers. -/
def IMAGE_MAGICS : List (List (List Nat)) :=
  [[[137, 80, 78, 71, 13, 10, 26, 10]],
   [[255, 216]],
   [strBytes "GIF87a", strBytes "GIF89a"]]

/-- try_to_load_image of src/tistel/image_loading.py (lines 52-68): decode
by path (extension-implied codec) and return the pixmap with the lower-cased
suffix; on failure read the first 8 bytes and, for each known format whose
magic number is a prefix of them, retry with that format, returning the
first success with its format, or nothing at all. -/
def try_to_load_image (env : ThumbEnv) (path : String) : Option (Nat × String) :=
  match env.decode path with
  | some pixmap => some (pixmap, env.suffix path)
  | none =>
      let magic_data := env.read8 path
      (IMAGE_EXTS.zip IMAGE_MAGICS).findSome? fun fm =>
        fm.2.findSome? fun magic =>
          if magic_data.take magic.length = magic then
            match env.decodeFmt fm.1 path with
            | some pixmap => some (pixmap, fm.1)
            | none => none
          else none

/-- generate_thumbnail of src/tistel/image_loading.py (lines 92-123):
returns the thumbnail bytes it writes, or none when no decoder succeeds (the
function then returns False without writing anything).  The orientation is
queried for thumb_path through the filesystem-existence oracle (see the C4
analysis); the pixel pipeline (transformed, scaled, copied, saved to PNG) is
folded into the rotate and encodeScaledPNG oracles, and the three tEXt
chunks are spliced in by spliceThumbChunks. -/
def generate_thumbnail (env : ThumbEnv) (fsExists : String → Bool)
    (thumb_path image_path : String) (uri_path : List Nat) : Option (List Nat) :=
  match try_to_load_image env image_path with
  | none => none
  | some (pixmap, _) =>
      let angle := generateThumbnailRotation fsExists env.exifOrientation
          thumb_path image_path
      let rotated := if angle = 0 then pixmap else env.rotate angle pixmap
      let data := env.encodeScaledPNG rotated
      some (spliceThumbChunks data (env.mtimeOf image_path) uri_path)

/-- The mutable state seen by ImageLoader.load_image: the in-memory icon
cache cached_thumbs, the thumbnail directory contents (file writes happen
here), and the icons emitted through thumbnail_ready so far. -/
structure LoaderState where
  cached_thumbs : String → Option Icon
  thumbFiles : String → Option (List Nat)
  emitted : List (Nat × Icon)

/-- One iteration of ImageLoader.load_image (src/tistel/image_loading.py,
lines 154-176) for a queued (index, skip_cache, path) triple: a cache hit
(unless skip_cache) emits the cached icon untouched; otherwise, when
skip_cache or the thumbnail file is absent, generate - on success write the
file, build the icon from it, insert it into the cache and emit it; on
failure emit the fixed failure icon without touching cache or disk; when the
thumbnail file already exists, build, cache and emit its icon. -/
def loadImageStep (env : ThumbEnv) (st : LoaderState) (item : Nat × Bool × String) :
    LoaderState :=
  let index := item.1
  let skip_cache := item.2.1
  let path := item.2.2
  match (if skip_cache then none else st.cached_thumbs path) with
  | some icon => { st with emitted := st.emitted ++ [(index, icon)] }
  | none =>
      let thumb_path := env.thumbName path
      if skip_cache ∨ (st.thumbFiles thumb_path).isNone then
        match generate_thumbnail env (fun p => (st.thumbFiles p).isSome)
            thumb_path path (env.uriOf path) with
        | some data =>
            { cached_thumbs := fun q => if q = path
                then some (Icon.thumb thumb_path) else st.cached_thumbs q,
              thumbFiles := fun q => if q = thumb_path
                then some data else st.thumbFiles q,
              emitted := st.emitted ++ [(index, Icon.thumb thumb_path)] }
        | none => { st with emitted := st.emitted ++ [(index, Icon.fail)] }
      else
        { st with
          cached_thumbs := fun q => if q = path
            then some (Icon.thumb thumb_path) else st.cached_thumbs q,
          emitted := st.emitted ++ [(index, Icon.thumb thumb_path)] }

/-- load_image over a whole queued batch. -/
def load_image (env : ThumbEnv) (imgs : List (Nat × Bool × String))
    (st : LoaderState) : LoaderState :=
  imgs.foldl (loadImageStep env) st

/-- C1: for every image tag set and every tag-filter state, the filter marks
the image not visible if and only if (untagged-state is Whitelisted and the
tag set is non-empty) or (untagged-state is Blacklisted and the tag set is
empty) or (the whitelist is non-empty and is not a subset of the tag set) or
(the blacklist is non-empty and intersects the tag set); moreover the
update_tag_filter predicate hides exactly the rows the proxy filter rejects,
and an image with zero tags is never visible under any non-empty whitelist. -/
theorem C1_tag_filter_visibility :
    (∀ (wl bl tags : Finset String) (ut : TagState),
      filterAcceptsRow wl bl ut tags = false ↔
        ((ut = TagState.WHITELISTED ∧ tags ≠ ∅)
          ∨ (ut = TagState.BLACKLISTED ∧ tags = ∅)
          ∨ (wl ≠ ∅ ∧ ¬ wl ⊆ tags)
          ∨ (bl ≠ ∅ ∧ (bl ∩ tags).Nonempty)))
    ∧ (∀ (wl bl tags : Finset String) (ut : TagState),
        updateTagFilterHides wl bl ut tags = !(filterAcceptsRow wl bl ut tags))
    ∧ (∀ (wl bl : Finset String) (ut : TagState),
        wl ≠ ∅ → filterAcceptsRow wl bl ut ∅ = false) := by
  refine ⟨fun wl bl tags ut => ?_, fun wl bl tags ut => ?_, fun wl bl ut hwl => ?_⟩
  · unfold filterAcceptsRow
    split
    · rename_i h
      simp only [eq_self_iff_true, true_iff]
      rcases h with h | h | h | h
      · exact Or.inl h
      · exact Or.inr (Or.inl h)
      · exact Or.inr (Or.inr (Or.inl h))
      · exact Or.inr (Or.inr (Or.inr ⟨h.1, Finset.nonempty_iff_ne_empty.mpr h.2⟩))
    · rename_i h
      simp only [Bool.true_eq_false, false_iff]
      intro hc
      apply h
      rcases hc with hc | hc | hc | hc
      · exact Or.inl hc
      · exact Or.inr (Or.inl hc)
      · exact Or.inr (Or.inr (Or.inl hc))
      · exact Or.inr (Or.inr (Or.inr ⟨hc.1, Finset.nonempty_iff_ne_empty.mp hc.2⟩))
  · unfold filterAcceptsRow updateTagFilterHides
    split <;> rfl
  · unfold filterAcceptsRow
    split
    · rfl
    · rename_i h
      exact absurd (Or.inr (Or.inr (Or.inl ⟨hwl, fun hsub =>
        hwl (Finset.subset_empty.mp hsub)⟩))) h

/-- Witness for C1: with whitelist containing the tag a, an untagged image is
rejected, and the rejection matches the specified disjunction. -/
theorem C1_tag_filter_visibility_witness :
    filterAcceptsRow {"a"} ∅ TagState.DEFAULT ∅ = false :=
  C1_tag_filter_visibility.2.2 {"a"} ∅ TagState.DEFAULT (by decide)

theorem indexImageStep_other (extractor : String → ExtractResult)
    (statOf : String → FileStat) (cache : String → Option CachedImageData)
    (calls : String → Nat) (path q : String) (hq : q ≠ path) :
    (indexImageStep extractor statOf cache calls path).1 q = cache q
    ∧ (indexImageStep extractor statOf cache calls path).2 q = calls q := by
  simp only [indexImageStep]
  split
  · exact ⟨rfl, rfl⟩
  · split <;> exact ⟨by simp [hq], by simp [hq]⟩

theorem indexImages_foldl_other (extractor : String → ExtractResult)
    (statOf : String → FileStat) (q : String) (files : List String)
    (hq : q ∉ files) (acc : (String → Option CachedImageData) × (String → Nat)) :
    (files.foldl (fun acc p => indexImageStep extractor statOf acc.1 acc.2 p) acc).1 q
      = acc.1 q
    ∧ (files.foldl (fun acc p => indexImageStep extractor statOf acc.1 acc.2 p) acc).2 q
      = acc.2 q := by
  induction files generalizing acc with
  | nil => exact ⟨rfl, rfl⟩
  | cons p rest ih =>
      have hqp : q ≠ p := fun h => hq (h ▸ List.mem_cons_self p rest)
      have hqrest : q ∉ rest := fun h => hq (List.mem_cons_of_mem p h)
      have hstep := indexImageStep_other extractor statOf acc.1 acc.2 p q hqp
      have hrest := ih hqrest (indexImageStep extractor statOf acc.1 acc.2 p)
      simp only [List.foldl_cons]
      exact ⟨hrest.1.trans hstep.1, hrest.2.trans hstep.2⟩

theorem indexImageStep_unchanged (extractor : String → ExtractResult)
    (statOf : String → FileStat) (cache : String → Option CachedImageData)
    (calls : String → Nat) (path : String) (r : CachedImageData)
    (hr : cache path = some r) (hmt : (statOf path).st_mtime = r.mtime)
    (hsz : (statOf path).st_size = r.size) :
    indexImageStep extractor statOf cache calls path = (cache, calls) := by
  simp only [indexImageStep, hr]
  simp [hmt, hsz]

theorem indexImageStep_stale (extractor : String → ExtractResult)
    (statOf : String → FileStat) (cache : String → Option CachedImageData)
    (calls : String → Nat) (path : String)
    (hdiff : ∀ r : CachedImageData, cache path = some r →
      (statOf path).st_mtime ≠ r.mtime ∨ (statOf path).st_size ≠ r.size) :
    (indexImageStep extractor statOf cache calls path).2 path = calls path + 1
    ∧ (∀ tags w h, extractor path = ExtractResult.ok tags w h →
        (indexImageStep extractor statOf cache calls path).1 path =
          some { tags := tags, size := (statOf path).st_size, w := w, h := h,
                 mtime := (statOf path).st_mtime, ctime := (statOf path).st_ctime }) := by
  have hunch : (match cache path with
      | some r => decide ((statOf path).st_mtime = r.mtime ∧ (statOf path).st_size = r.size)
      | none => false) = false := by
    cases hm : cache path with
    | none => rfl
    | some r =>
        simp only [decide_eq_false_iff_not]
        intro hc
        rcases hdiff r hm with hne | hne
        · exact hne hc.1
        · exact hne hc.2
  constructor
  · simp only [indexImageStep, hunch, Bool.false_eq_true, if_false]
    split <;> simp
  · intro tags w h hok
    simp only [indexImageStep, hunch, Bool.false_eq_true, if_false, hok]
    simp

/-- C3: in a scan whose file list contains the path exactly once, if the
cached record matches the file stat on both mtime and size then the extractor
is never invoked for that path and the record is kept unchanged; if no record
exists or either stat field differs, the extractor is invoked exactly once
and, on success, the record is fully replaced by fresh tags, size,
dimensions, mtime and ctime from this extraction and stat. -/
theorem C3_staleness_oracle (extractor : String → ExtractResult)
    (statOf : String → FileStat) (initCache : String → Option CachedImageData)
    (pre post : List String) (p : String)
    (hpre : p ∉ pre) (hpost : p ∉ post) :
    (∀ r : CachedImageData, initCache p = some r →
      (statOf p).st_mtime = r.mtime → (statOf p).st_size = r.size →
      (indexImages extractor statOf initCache (pre ++ p :: post)).2 p = 0
      ∧ (indexImages extractor statOf initCache (pre ++ p :: post)).1 p = some r)
    ∧ ((∀ r : CachedImageData, initCache p = some r →
          (statOf p).st_mtime ≠ r.mtime ∨ (statOf p).st_size ≠ r.size) →
      (indexImages extractor statOf initCache (pre ++ p :: post)).2 p = 1
      ∧ (∀ tags w h, extractor p = ExtractResult.ok tags w h →
          (indexImages extractor statOf initCache (pre ++ p :: post)).1 p =
            some { tags := tags, size := (statOf p).st_size, w := w, h := h,
                   mtime := (statOf p).st_mtime, ctime := (statOf p).st_ctime })) := by
  have hmid := indexImages_foldl_other extractor statOf p pre hpre
      (initCache, fun _ => 0)
  set mid := pre.foldl (fun acc q => indexImageStep extractor statOf acc.1 acc.2 q)
      (initCache, fun _ => 0) with hmiddef
  have hunf : indexImages extractor statOf initCache (pre ++ p :: post)
      = post.foldl (fun acc q => indexImageStep extractor statOf acc.1 acc.2 q)
          (indexImageStep extractor statOf mid.1 mid.2 p) := by
    unfold indexImages
    rw [List.foldl_append, List.foldl_cons]
  have hpostpres := indexImages_foldl_other extractor statOf p post hpost
      (indexImageStep extractor statOf mid.1 mid.2 p)
  constructor
  · intro r hr hmt hsz
    have hstep := indexImageStep_unchanged extractor statOf mid.1 mid.2 p r
        (hmid.1.trans hr) hmt hsz
    rw [hunf]
    constructor
    · rw [hpostpres.2, hstep]
      exact hmid.2
    · rw [hpostpres.1, hstep]
      exact hmid.1.trans hr
  · intro hdiff
    have hstale := indexImageStep_stale extractor statOf mid.1 mid.2 p
        (fun r hm => hdiff r (hmid.1.symm.trans hm))
    rw [hunf]
    constructor
    · rw [hpostpres.2, hstale.1, hmid.2]
    · intro tags w h hok
      rw [hpostpres.1, hstale.2 tags w h hok]

/-- Witness for C3: a one-file scan of a stale record invokes the extractor
once and replaces the record. -/
theorem C3_staleness_oracle_witness :
    (indexImages (fun _ => ExtractResult.ok ["t"] 2 3)
        (fun _ => { st_mtime := 9, st_size := 5, st_ctime := 1 })
        (fun q => if q = "a.png" then
            some { tags := [], size := 5, w := 1, h := 1, mtime := 4, ctime := 1 }
          else none)
        ["a.png"]).2 "a.png" = 1
    ∧ (indexImages (fun _ => ExtractResult.ok ["t"] 2 3)
        (fun _ => { st_mtime := 9, st_size := 5, st_ctime := 1 })
        (fun q => if q = "a.png" then
            some { tags := [], size := 5, w := 1, h := 1, mtime := 4, ctime := 1 }
          else none)
        ["a.png"]).1 "a.png" =
        some { tags := ["t"], size := 5, w := 2, h := 3, mtime := 9, ctime := 1 } := by
  have h := (C3_staleness_oracle (fun _ => ExtractResult.ok ["t"] 2 3)
      (fun _ => { st_mtime := 9, st_size := 5, st_ctime := 1 })
      (fun q => if q = "a.png" then
          some { tags := [], size := 5, w := 1, h := 1, mtime := 4, ctime := 1 }
        else none)
      [] [] "a.png" (by simp) (by simp)).2 (by
        intro r hr
        rw [if_pos rfl] at hr
        injection hr with h
        left
        rw [← h]
        decide)
  exact ⟨h.1, h.2 ["t"] 2 3 rfl⟩

/-- C5 counterexample: a cache entry whose file is gone (so the scan finds no
such file on disk: the scanned file list is empty) survives into the cache
map that the scan persists, so the persisted document does contain a path
that did not exist on disk during the scan, contradicting the claim. -/
theorem C5_counterexample :
    ("gone.png" ∉ ([] : List String))
    ∧ (indexImages (fun _ => ExtractResult.oserror)
        (fun _ => { st_mtime := 0, st_size := 0, st_ctime := 0 })
        (fun q => if q = "gone.png" then
            some { tags := ["t"], size := 3, w := 1, h := 1, mtime := 2, ctime := 2 }
          else none)
        []).1 "gone.png"
      = some { tags := ["t"], size := 3, w := 1, h := 1, mtime := 2, ctime := 2 } :=
  ⟨List.not_mem_nil _, by simp [indexImages]⟩

/-- C5 amended: the index scan does not remove cache entries for missing
files: any cached path not among the scanned files is persisted unchanged.
Missing paths are instead dropped only from the in-memory copy built by
ThumbView.load_index, which keeps exactly the loaded entries whose file still
exists and turns into view items exactly those that in addition lie under an
active root. -/
theorem C5_missing_entries (extractor : String → ExtractResult)
    (statOf : String → FileStat) (initCache : String → Option CachedImageData)
    (files : List String) (q : String) (hq : q ∉ files)
    (fsExists underRoot : String → Bool)
    (entries : List (String × CachedImageData)) (e : String × CachedImageData) :
    (indexImages extractor statOf initCache files).1 q = initCache q
    ∧ (e ∈ (loadIndexScan fsExists underRoot entries).2 ↔
        e ∈ entries ∧ fsExists e.1 = true)
    ∧ (e ∈ (loadIndexScan fsExists underRoot entries).1 ↔
        e ∈ entries ∧ fsExists e.1 = true ∧ underRoot e.1 = true) := by
  refine ⟨(indexImages_foldl_other extractor statOf q files hq _).1, ?_, ?_⟩
  · induction entries with
    | nil => simp [loadIndexScan]
    | cons entry rest ih =>
        by_cases hfs : fsExists entry.1 = true
        · simp only [loadIndexScan, hfs, if_true, List.mem_cons]
          constructor
          · rintro (rfl | hmem)
            · exact ⟨Or.inl rfl, hfs⟩
            · exact ⟨Or.inr (ih.mp hmem).1, (ih.mp hmem).2⟩
          · rintro ⟨rfl | hmem, hex⟩
            · exact Or.inl rfl
            · exact Or.inr (ih.mpr ⟨hmem, hex⟩)
        · simp only [loadIndexScan, hfs, Bool.false_eq_true, if_false, List.mem_cons]
          rw [ih]
          constructor
          · exact fun h => ⟨Or.inr h.1, h.2⟩
          · rintro ⟨rfl | hmem, hex⟩
            · exact absurd hex hfs
            · exact ⟨hmem, hex⟩
  · induction entries with
    | nil => simp [loadIndexScan]
    | cons entry rest ih =>
        by_cases hfs : fsExists entry.1 = true
        · by_cases hur : underRoot entry.1 = true
          · simp only [loadIndexScan, hfs, hur, if_true, List.mem_cons]
            constructor
            · rintro (rfl | hmem)
              · exact ⟨Or.inl rfl, hfs, hur⟩
              · exact ⟨Or.inr (ih.mp hmem).1, (ih.mp hmem).2⟩
            · rintro ⟨rfl | hmem, hex, hu⟩
              · exact Or.inl rfl
              · exact Or.inr (ih.mpr ⟨hmem, hex, hu⟩)
          · simp only [loadIndexScan, hfs, hur, Bool.false_eq_true, if_true, if_false,
              List.mem_cons]
            rw [ih]
            constructor
            · exact fun h => ⟨Or.inr h.1, h.2⟩
            · rintro ⟨rfl | hmem, hex, hu⟩
              · exact absurd hu hur
              · exact ⟨hmem, hex, hu⟩
        · simp only [loadIndexScan, hfs, Bool.false_eq_true, if_false, List.mem_cons]
          rw [ih]
          constructor
          · exact fun h => ⟨Or.inr h.1, h.2⟩
          · rintro ⟨rfl | hmem, hex, hu⟩
            · exact absurd hex hfs
            · exact ⟨hmem, hex, hu⟩

/-- Witness for C5 amended: a kept-by-load_index entry and an untouched
persisted entry for a missing path on concrete data. -/
theorem C5_missing_entries_witness :
    (indexImages (fun _ => ExtractResult.oserror)
        (fun _ => { st_mtime := 0, st_size := 0, st_ctime := 0 })
        (fun _ => none) ["x.png"] ).1 "gone.png" = none
    ∧ (("a.png", { tags := [], size := 1, w := 1, h := 1, mtime := 0, ctime := 0 }) ∈
        (loadIndexScan (fun _ => true) (fun _ => true)
          [("a.png", { tags := [], size := 1, w := 1, h := 1, mtime := 0, ctime := 0 })]).2 ↔
        ("a.png", ({ tags := [], size := 1, w := 1, h := 1, mtime := 0, ctime := 0 } :
          CachedImageData)) ∈
          [("a.png", ({ tags := [], size := 1, w := 1, h := 1, mtime := 0, ctime := 0 } :
            CachedImageData))] ∧ (fun (_ : String) => true) "a.png" = true) := by
  have h := C5_missing_entries (fun _ => ExtractResult.oserror)
      (fun _ => { st_mtime := 0, st_size := 0, st_ctime := 0 })
      (fun _ => none) ["x.png"] "gone.png" (by simp)
      (fun _ => true) (fun _ => true)
      [("a.png", { tags := [], size := 1, w := 1, h := 1, mtime := 0, ctime := 0 })]
      ("a.png", { tags := [], size := 1, w := 1, h := 1, mtime := 0, ctime := 0 })
  exact ⟨h.1, h.2.1⟩

/-- C4 (code bug): on a fresh generation the thumbnail file does not yet
exist, and generate_thumbnail passes thumb_path, not the source image path,
to try_to_get_orientation; so although the source file reports orientation 6
(and set_rotation maps 8 to -90, 6 to +90, 3 to 180, others to the
identity, as the claim states), the decoded source pixels are not rotated at
all. -/
theorem C4_orientation_read_from_thumb_path :
    generateThumbnailRotation (fun p => p == "img.jpg") (fun _ => some 6)
        "thumb.png" "img.jpg" = 0
    ∧ try_to_get_orientation (fun p => p == "img.jpg") (fun _ => some 6)
        "img.jpg" = some 6
    ∧ set_rotation 6 = 90
    ∧ set_rotation 8 = -90 ∧ set_rotation 3 = 180 ∧ set_rotation 5 = 0 := by
  refine ⟨?_, ?_, by decide, by decide, by decide, by decide⟩
  · simp [generateThumbnailRotation, try_to_get_orientation]
  · simp [try_to_get_orientation]

/-- C6 counterexample: applying the edit tagsToAdd containing only x,
tagsToRemove empty, to a single previously untagged image: the report that
the code produces is the per-tag delta Counter (plus the updated-files map),
and its slot for the untagged pseudo-tag (the empty-string key, the code's
own convention for untagged) stays 0 - no untaggedDelta of -1 is reported
anywhere, while perTagDelta of x is 1 as claimed. -/
theorem C6_counterexample :
    ((applyTagEdit (fun _ _ => Exiv2WriteResult.ok "") [("img.png", ∅)]
        {"x"} ∅).1.1 "" = 0)
    ∧ ((applyTagEdit (fun _ _ => Exiv2WriteResult.ok "") [("img.png", ∅)]
        {"x"} ∅).1.1 "x" = 1) := by
  constructor <;> decide

/-- C6 (amended): the edit computes per image newTags = (oldTags union
tagsToAdd) minus tagsToRemove and skips images whose tag set is unchanged;
applied with tagsToAdd containing exactly the non-empty tag name x and
tagsToRemove empty to a previously untagged image, it reports a per-tag
delta of 1 for x, records the image as updated with tag set containing x,
and reports no delta (0) for the untagged slot - the untagged count is not
part of the edit report, it is recomputed from scratch afterwards; applying
the same edit again (tag already present) reports no change for that
image. -/
theorem C6_tag_edit_diff (exiv2 : String → Finset String → Exiv2WriteResult)
    (i x w : String) (hx : x ≠ "")
    (hw : ∀ t : Finset String, exiv2 i t = Exiv2WriteResult.ok w) :
    (applyTagEdit exiv2 [(i, ∅)] {x} ∅).2 = none
    ∧ (applyTagEdit exiv2 [(i, ∅)] {x} ∅).1.1 x = 1
    ∧ (applyTagEdit exiv2 [(i, ∅)] {x} ∅).1.1 "" = 0
    ∧ (applyTagEdit exiv2 [(i, ∅)] {x} ∅).1.2 = [(i, {x})]
    ∧ (∀ t, (applyTagEdit exiv2 [(i, {x})] {x} ∅).1.1 t = 0)
    ∧ (applyTagEdit exiv2 [(i, {x})] {x} ∅).1.2 = []
    ∧ (∀ (toAdd toRemove old : Finset String) (p : String),
        (old ∪ toAdd) \ toRemove = old →
        applyTagEdit exiv2 [(p, old)] toAdd toRemove = ((fun _ => 0, []), none)) := by
  have hset : ((∅ ∪ {x}) \ ∅ : Finset String) = {x} := by simp
  have hne : ((∅ ∪ {x}) \ ∅ : Finset String) ≠ ∅ := by
    rw [hset]
    exact Finset.singleton_ne_empty x
  have hfirst : applyTagEdit exiv2 [(i, ∅)] {x} ∅
      = ((fun t => 0 + (if t ∈ ({x} : Finset String) \ ∅ then (1 : Int) else 0)
            - (if t ∈ (∅ : Finset String) \ ({x} : Finset String) then 1 else 0),
          [(i, (∅ ∪ {x}) \ ∅)]), none) := by
    unfold applyTagEdit showTaggingLoop
    rw [if_neg hne]
    simp only [set_tags, hw]
    rw [hset]
    rfl
  have hsecond : applyTagEdit exiv2 [(i, {x})] {x} ∅
      = ((fun _ => 0, []), none) := by
    unfold applyTagEdit showTaggingLoop
    rw [if_pos (by simp)]
    rfl
  refine ⟨?_, ?_, ?_, ?_, ?_, ?_, ?_⟩
  · rw [hfirst]
  · rw [hfirst]
    simp
  · rw [hfirst]
    simp [Ne.symm hx]
  · rw [hfirst, hset]
  · intro t
    rw [hsecond]
  · rw [hsecond]
  · intro toAdd toRemove old p hunch
    unfold applyTagEdit showTaggingLoop
    rw [if_pos hunch]
    rfl

/-- Witness for C6: concrete image and tag name. -/
theorem C6_tag_edit_diff_witness :
    (applyTagEdit (fun _ _ => Exiv2WriteResult.ok "") [("a.png", ∅)] {"x"} ∅).1.1 "x" = 1
    ∧ (applyTagEdit (fun _ _ => Exiv2WriteResult.ok "") [("a.png", {"x"})] {"x"} ∅).1.2
        = [] := by
  have h := C6_tag_edit_diff (fun _ _ => Exiv2WriteResult.ok "") "a.png" "x" ""
      (by decide) (fun _ => rfl)
  exact ⟨h.2.1, h.2.2.2.2.2.1⟩

/-- C7: a tag-writer failure is fatal to the batch.  First, set_tags fails
exactly when the underlying exiv2 invocation fails.  Second, when the batch
reaches an image whose tag set changes and whose write fails, the loop stops
with that error immediately: the updated-files report is exactly what had
been gathered before, and no image after the failing one is processed.
Third, when the loop reports no error, every changed image's write
succeeded (nothing failed silently). -/
theorem C7_tag_write_error_propagation
    (exiv2 : String → Finset String → Exiv2WriteResult) :
    (∀ fname tags, (∃ e, set_tags exiv2 fname tags = Except.error e) ↔
      (∃ s, exiv2 fname tags = Exiv2WriteResult.failed s))
    ∧ (∀ (tags_to_add tags_to_remove old : Finset String) (path s : String)
        (rest : List (String × Finset String)) (counts : String → Int)
        (updated : List (String × Finset String)),
        (old ∪ tags_to_add) \ tags_to_remove ≠ old →
        exiv2 path ((old ∪ tags_to_add) \ tags_to_remove) = Exiv2WriteResult.failed s →
        (showTaggingLoop exiv2 tags_to_add tags_to_remove ((path, old) :: rest)
            counts updated).1.2 = updated
        ∧ (showTaggingLoop exiv2 tags_to_add tags_to_remove ((path, old) :: rest)
            counts updated).2
          = some ("running exiv2 failed on image " ++ path ++ "!" ++ "stderr: " ++ s))
    ∧ (∀ (tags_to_add tags_to_remove : Finset String)
        (sel : List (String × Finset String)) (counts : String → Int)
        (updated : List (String × Finset String)),
        (showTaggingLoop exiv2 tags_to_add tags_to_remove sel counts updated).2 = none →
        ∀ pr ∈ sel, (pr.2 ∪ tags_to_add) \ tags_to_remove ≠ pr.2 →
          ∃ warn, exiv2 pr.1 ((pr.2 ∪ tags_to_add) \ tags_to_remove)
            = Exiv2WriteResult.ok warn) := by
  refine ⟨fun fname tags => ?_, ?_, ?_⟩
  · unfold set_tags
    cases hx : exiv2 fname tags with
    | ok wmsg =>
        constructor
        · rintro ⟨e, he⟩
          exact absurd he (by simp)
        · rintro ⟨s, hs⟩
          exact absurd hs (by simp)
    | failed s =>
        constructor
        · intro _
          exact ⟨s, rfl⟩
        · intro _
          exact ⟨_, rfl⟩
  · intro tags_to_add tags_to_remove old path s rest counts updated hch hfail
    unfold showTaggingLoop
    rw [if_neg hch]
    simp [set_tags, hfail]
  · intro tags_to_add tags_to_remove sel
    induction sel with
    | nil =>
        intro counts updated _ pr hpr
        exact absurd hpr (List.not_mem_nil pr)
    | cons hd rest ih =>
        intro counts updated hnone pr hpr hch
        rcases hd with ⟨path, old⟩
        by_cases hunch : (old ∪ tags_to_add) \ tags_to_remove = old
        · rw [showTaggingLoop, if_pos hunch] at hnone
          rcases List.mem_cons.mp hpr with rfl | hmem
          · exact absurd hunch hch
          · exact ih counts updated hnone pr hmem hch
        · rw [showTaggingLoop, if_neg hunch] at hnone
          cases hx : exiv2 path ((old ∪ tags_to_add) \ tags_to_remove) with
          | failed s =>
              rw [set_tags, hx] at hnone
              exact absurd hnone (by simp)
          | ok warn =>
              rw [set_tags, hx] at hnone
              rcases List.mem_cons.mp hpr with rfl | hmem
              · exact ⟨warn, hx⟩
              · exact ih _ _ hnone pr hmem hch

/-- Witness for C7: a concrete failing writer aborts a two-image batch after
the first (unchanged, skipped) image, reporting the error and no updated
files. -/
theorem C7_tag_write_error_propagation_witness :
    (showTaggingLoop (fun _ _ => Exiv2WriteResult.failed "boom") {"x"} ∅
        [("b.png", ∅)] (fun _ => 0) []).1.2 = []
    ∧ (showTaggingLoop (fun _ _ => Exiv2WriteResult.failed "boom") {"x"} ∅
        [("b.png", ∅)] (fun _ => 0) []).2
      = some ("running exiv2 failed on image " ++ "b.png" ++ "!" ++ "stderr: " ++ "boom") :=
  (C7_tag_write_error_propagation (fun _ _ => Exiv2WriteResult.failed "boom")).2.1
    {"x"} ∅ ∅ "b.png" "boom" [] (fun _ => 0) [] (by decide) rfl

/-- C9 counterexample: when both exiv2 invocations fail (CalledProcessError
with empty stdout) and nothing parses, extract_metadata does not fail - it
succeeds with an empty tag list and the (-1,-1) sentinel dimensions, exactly
the silent result the claim rules out. -/
theorem C9_counterexample :
    extract_metadata (fun _ => ProcResult.failed "" "err")
        (fun _ => none) (fun _ => ProcResult.failed "" "err")
        (fun _ => none) "img.png"
      = Except.ok ([], (-1, -1)) := by
  simp [extract_metadata, read_tags, dimensions, List.mergeSort_nil]

/-- C9 (amended): a failing exiv2 invocation is swallowed, not propagated:
read_tags then yields no tags, and dimensions falls back to parsing the
failed call's stdout, returning the (-1,-1) sentinel when no size line is
found there, so extraction succeeds with an empty tag list and sentinel
dimensions; extraction fails (for that file only) exactly when non-blank XMP
output fails to parse as XML; and on success it returns the sorted tag list
together with the dimensions. -/
theorem C9_extractor_failure_modes (exiv2PrintXmp : String → ProcResult)
    (parseXmpBagItems : String → Option (List String))
    (exiv2PrintSize : String → ProcResult)
    (firstSizeLine : String → Option (Int × Int)) (path : String) :
    (∀ stdout stderr, exiv2PrintXmp path = ProcResult.failed stdout stderr →
      read_tags exiv2PrintXmp parseXmpBagItems path = Except.ok [])
    ∧ (∀ stdout stderr, exiv2PrintSize path = ProcResult.failed stdout stderr →
        firstSizeLine stdout = none →
        dimensions exiv2PrintSize firstSizeLine path = (-1, -1))
    ∧ ((∃ e, extract_metadata exiv2PrintXmp parseXmpBagItems exiv2PrintSize
          firstSizeLine path = Except.error e) ↔
        (∃ out, exiv2PrintXmp path = ProcResult.ok out ∧ isBlank out = false
          ∧ parseXmpBagItems out = none))
    ∧ (∀ tags, read_tags exiv2PrintXmp parseXmpBagItems path = Except.ok tags →
        extract_metadata exiv2PrintXmp parseXmpBagItems exiv2PrintSize
          firstSizeLine path
        = Except.ok (tags.mergeSort (fun a b => a ≤ b),
            dimensions exiv2PrintSize firstSizeLine path)) := by
  refine ⟨?_, ?_, ?_, ?_⟩
  · intro stdout stderr hf
    rw [read_tags, hf]
  · intro stdout stderr hf hn
    rw [dimensions]
    simp only [hf, hn]
  · constructor
    · rintro ⟨e, he⟩
      rw [extract_metadata] at he
      cases hr : read_tags exiv2PrintXmp parseXmpBagItems path with
      | ok tags => rw [hr] at he; exact absurd he (by simp)
      | error msg =>
          rw [read_tags] at hr
          cases hx : exiv2PrintXmp path with
          | failed o s => rw [hx] at hr; exact absurd hr (by simp)
          | ok out =>
              rw [hx] at hr
              dsimp only at hr
              by_cases ht : isBlank out = true
              · rw [if_pos ht] at hr
                exact absurd hr (by simp)
              · rw [if_neg ht] at hr
                cases hp : parseXmpBagItems out with
                | some tags => rw [hp] at hr; exact absurd hr (by simp)
                | none => exact ⟨out, rfl, Bool.not_eq_true _ ▸ ht, hp⟩
    · rintro ⟨out, hx, ht, hp⟩
      refine ⟨"XML parse error", ?_⟩
      rw [extract_metadata, read_tags, hx]
      dsimp only
      rw [if_neg (by rw [ht]; exact Bool.false_ne_true), hp]
  · intro tags hok
    rw [extract_metadata, hok]

/-- Witness for C9: with successful exiv2 output carrying two tags, the
extraction returns them sorted along with the parsed dimensions. -/
theorem C9_extractor_failure_modes_witness :
    extract_metadata (fun _ => ProcResult.ok "xmp")
        (fun _ => some ["b", "a"]) (fun _ => ProcResult.ok "sz")
        (fun _ => some (640, 480)) "img.png"
      = Except.ok (["b", "a"].mergeSort (fun a b => a ≤ b),
          dimensions (fun _ => ProcResult.ok "sz") (fun _ => some (640, 480)) "img.png")
    ∧ ["b", "a"].mergeSort (fun a b => (a ≤ b : Bool)) = ["a", "b"]
    ∧ dimensions (fun _ => ProcResult.ok "sz") (fun _ => some (640, 480)) "img.png"
      = (640, 480) := by
  refine ⟨?_, by simp [List.mergeSort, List.merge]; decide, by rw [dimensions]⟩
  exact (C9_extractor_failure_modes (fun _ => ProcResult.ok "xmp")
      (fun _ => some ["b", "a"]) (fun _ => ProcResult.ok "sz")
      (fun _ => some (640, 480)) "img.png").2.2.2 ["b", "a"] (by
        rw [read_tags]
        dsimp only
        rw [if_neg (by decide)])

theorem readBE32_be32 (n : Nat) (rest : List Nat) (hn : n < 4294967296) :
    readBE32 (be32 n ++ rest) = n := by
  simp only [be32, List.cons_append, List.nil_append, readBE32]
  omega

theorem splitAtNul_append (name text : List Nat) (hname : 0 ∉ name) :
    splitAtNul (name ++ 0 :: text) = some (name, text) := by
  induction name with
  | nil => simp [splitAtNul]
  | cons b bs ih =>
      have hb : b ≠ 0 := fun h => hname (h ▸ List.mem_cons_self b bs)
      have hbs : 0 ∉ bs := fun h => hname (List.mem_cons_of_mem b h)
      rw [List.cons_append, splitAtNul, if_neg hb, ih hbs]

theorem parseChunks_chunk (fuel n : Nat) (typ payload crc rest : List Nat)
    (hn : n < 4294967296) (ht : typ.length = 4) (hp : payload.length = n)
    (hc : crc.length = 4) :
    parseChunks (fuel + 1) (be32 n ++ (typ ++ (payload ++ (crc ++ rest))))
      = match parseChunks fuel rest with
        | some cs => some ((typ, payload) :: cs)
        | none => none := by
  have hne : (be32 n ++ (typ ++ (payload ++ (crc ++ rest)))).isEmpty = false := by
    simp [be32]
  have hlen : readBE32 (be32 n ++ (typ ++ (payload ++ (crc ++ rest)))) = n :=
    readBE32_be32 n _ hn
  have hL : (be32 n ++ (typ ++ (payload ++ (crc ++ rest)))).length
      = 12 + n + rest.length := by
    simp [be32, List.length_append, ht, hp, hc]
    omega
  have hdrop4 : (be32 n ++ (typ ++ (payload ++ (crc ++ rest)))).drop 4
      = typ ++ (payload ++ (crc ++ rest)) := by
    have h4 : (be32 n).length = 4 := by simp [be32]
    rw [← h4, List.drop_left]
  have hdrop8 : (be32 n ++ (typ ++ (payload ++ (crc ++ rest)))).drop 8
      = payload ++ (crc ++ rest) := by
    have he : be32 n ++ (typ ++ (payload ++ (crc ++ rest)))
        = (be32 n ++ typ) ++ (payload ++ (crc ++ rest)) := by
      rw [List.append_assoc]
    have h8 : (be32 n ++ typ).length = 8 := by simp [be32, ht]
    rw [he, ← h8, List.drop_left]
  have hdropAll : (be32 n ++ (typ ++ (payload ++ (crc ++ rest)))).drop (12 + n)
      = rest := by
    have he : be32 n ++ (typ ++ (payload ++ (crc ++ rest)))
        = (be32 n ++ typ ++ payload ++ crc) ++ rest := by
      simp [List.append_assoc]
    have hA : (be32 n ++ typ ++ payload ++ crc).length = 12 + n := by
      simp [be32, List.length_append, ht, hp, hc]
      omega
    rw [he, ← hA, List.drop_left]
  have htake4 : (typ ++ (payload ++ (crc ++ rest))).take 4 = typ := by
    rw [← ht]
    exact List.take_left typ _
  have htaken : (payload ++ (crc ++ rest)).take n = payload := by
    rw [← hp]
    exact List.take_left payload _
  rw [parseChunks.eq_def]
  rw [if_neg (by rw [hne]; exact Bool.false_ne_true)]
  dsimp only
  rw [hlen, if_neg (by rw [hL]; omega), hdropAll, hdrop4, htake4, hdrop8, htaken]

theorem parseChunks_text_chunk (fuel : Nat) (name text rest : List Nat)
    (hL : name.length + 1 + text.length < 4294967296) :
    parseChunks (fuel + 1) (png_text_chunk name text ++ rest)
      = match parseChunks fuel rest with
        | some cs => some ((tEXtType, name ++ 0 :: text) :: cs)
        | none => none := by
  have harg : (tEXtType ++ name ++ 0 :: text).length - 4
      = name.length + 1 + text.length := by
    have h4 : tEXtType.length = 4 := by decide
    simp [List.length_append, h4]
    omega
  have hshape : png_text_chunk name text ++ rest
      = be32 (name.length + 1 + text.length)
        ++ (tEXtType ++ ((name ++ 0 :: text)
          ++ (be32 (crc32 (tEXtType ++ name ++ 0 :: text)) ++ rest))) := by
    simp only [png_text_chunk]
    rw [harg]
    simp [List.append_assoc]
  rw [hshape]
  exact parseChunks_chunk fuel (name.length + 1 + text.length) tEXtType
    (name ++ 0 :: text) (be32 (crc32 (tEXtType ++ name ++ 0 :: text))) rest hL
    (by decide) (by simp [List.length_append]; omega) (by simp [be32])

theorem try_to_load_image_none (env : ThumbEnv) (path : String)
    (hdec : env.decode path = none)
    (hfmt : ∀ fmt, env.decodeFmt fmt path = none) :
    try_to_load_image env path = none := by
  rw [try_to_load_image, hdec]
  dsimp only
  rw [List.findSome?_eq_none]
  intro fm _
  rw [List.findSome?_eq_none]
  intro magic _
  split
  · rw [hfmt fm.1]
  · rfl

theorem loadImageStep_generate (env : ThumbEnv) (st : LoaderState)
    (index : Nat) (skip_cache : Bool) (path : String)
    (htrigger : skip_cache = true ∨ (st.cached_thumbs path = none
        ∧ st.thumbFiles (env.thumbName path) = none)) :
    loadImageStep env st (index, skip_cache, path)
      = match generate_thumbnail env (fun p => (st.thumbFiles p).isSome)
            (env.thumbName path) path (env.uriOf path) with
        | some data =>
            { cached_thumbs := fun q => if q = path
                then some (Icon.thumb (env.thumbName path)) else st.cached_thumbs q,
              thumbFiles := fun q => if q = env.thumbName path
                then some data else st.thumbFiles q,
              emitted := st.emitted ++ [(index, Icon.thumb (env.thumbName path))] }
        | none => { st with emitted := st.emitted ++ [(index, Icon.fail)] } := by
  rcases htrigger with hskip | ⟨hcache, hfile⟩
  · subst hskip
    rw [loadImageStep]
    dsimp only
    rw [if_pos rfl]
    dsimp only
    rw [if_pos (Or.inl rfl)]
  · cases hsk : skip_cache with
    | true =>
        rw [loadImageStep]
        dsimp only
        rw [if_pos rfl]
        dsimp only
        rw [if_pos (Or.inl rfl)]
    | false =>
        rw [loadImageStep]
        dsimp only
        rw [if_neg Bool.false_ne_true, hcache]
        dsimp only
        rw [if_pos (Or.inr (by rw [hfile]; rfl))]

/-- C8: when the extension-implied codec fails and every magic-number
fallback decoder fails too, generate_thumbnail reports failure without
producing any bytes, and the thumbnail request emits the fixed failure icon,
writes no thumbnail cache file and leaves the icon cache untouched; the
outcome is a pure function of the oracles, hence deterministic, and total,
hence non-crashing. -/
theorem C8_undecodable_source (env : ThumbEnv) (st : LoaderState)
    (index : Nat) (skip_cache : Bool) (path : String)
    (hdec : env.decode path = none)
    (hfmt : ∀ fmt, env.decodeFmt fmt path = none)
    (htrigger : skip_cache = true ∨ (st.cached_thumbs path = none
        ∧ st.thumbFiles (env.thumbName path) = none)) :
    generate_thumbnail env (fun p => (st.thumbFiles p).isSome)
        (env.thumbName path) path (env.uriOf path) = none
    ∧ (load_image env [(index, skip_cache, path)] st).emitted
        = st.emitted ++ [(index, Icon.fail)]
    ∧ (load_image env [(index, skip_cache, path)] st).cached_thumbs
        = st.cached_thumbs
    ∧ (load_image env [(index, skip_cache, path)] st).thumbFiles
        = st.thumbFiles := by
  have hgen : generate_thumbnail env (fun p => (st.thumbFiles p).isSome)
      (env.thumbName path) path (env.uriOf path) = none := by
    rw [generate_thumbnail, try_to_load_image_none env path hdec hfmt]
  have hstep := loadImageStep_generate env st index skip_cache path htrigger
  rw [hgen] at hstep
  have hload : load_image env [(index, skip_cache, path)] st
      = loadImageStep env st (index, skip_cache, path) := rfl
  rw [hload, hstep]
  exact ⟨hgen, rfl, rfl, rfl⟩

/-- Witness for C8: a concrete environment where nothing decodes. -/
theorem C8_undecodable_source_witness :
    (load_image
        { decode := fun _ => none, decodeFmt := fun _ _ => none,
          read8 := fun _ => [], suffix := fun _ => ".png",
          exifOrientation := fun _ => none, rotate := fun _ p => p,
          encodeScaledPNG := fun _ => [], mtimeOf := fun _ => 0,
          thumbName := fun _ => "t.png", uriOf := fun _ => [] }
        [(0, true, "a.png")]
        { cached_thumbs := fun _ => none, thumbFiles := fun _ => none,
          emitted := [] }).emitted = [(0, Icon.fail)] :=
  (C8_undecodable_source
    { decode := fun _ => none, decodeFmt := fun _ _ => none,
      read8 := fun _ => [], suffix := fun _ => ".png",
      exifOrientation := fun _ => none, rotate := fun _ p => p,
      encodeScaledPNG := fun _ => [], mtimeOf := fun _ => 0,
      thumbName := fun _ => "t.png", uriOf := fun _ => [] }
    { cached_thumbs := fun _ => none, thumbFiles := fun _ => none, emitted := [] }
    0 true "a.png" rfl (fun _ => rfl) (Or.inl rfl)).2.1

/-- C10 counterexample: a path whose icon was cached by an earlier success
and whose forced regeneration (skip_cache) now fails keeps its stale icon in
the in-memory cache even though this load_image call's generation failed and
emitted the failure icon - so after this call the cache does hold a path
whose generation failed. -/
theorem C10_counterexample :
    ((load_image
        { decode := fun _ => none, decodeFmt := fun _ _ => none,
          read8 := fun _ => [], suffix := fun _ => ".png",
          exifOrientation := fun _ => none, rotate := fun _ p => p,
          encodeScaledPNG := fun _ => [], mtimeOf := fun _ => 0,
          thumbName := fun _ => "t.png", uriOf := fun _ => [] }
        [(0, true, "a.png")]
        { cached_thumbs := fun p => if p = "a.png"
            then some (Icon.thumb "old.png") else none,
          thumbFiles := fun _ => none, emitted := [] }).emitted
      = [(0, Icon.fail)])
    ∧ ((load_image
        { decode := fun _ => none, decodeFmt := fun _ _ => none,
          read8 := fun _ => [], suffix := fun _ => ".png",
          exifOrientation := fun _ => none, rotate := fun _ p => p,
          encodeScaledPNG := fun _ => [], mtimeOf := fun _ => 0,
          thumbName := fun _ => "t.png", uriOf := fun _ => [] }
        [(0, true, "a.png")]
        { cached_thumbs := fun p => if p = "a.png"
            then some (Icon.thumb "old.png") else none,
          thumbFiles := fun _ => none, emitted := [] }).cached_thumbs "a.png"
      = some (Icon.thumb "old.png")) := by
  constructor <;> rfl

/-- C10 (amended): the failure icon is never inserted into the icon cache -
a failed generation leaves both the icon cache and the thumbnail directory
exactly as they were (so a path that never loaded successfully stays absent
and a later request retries generation), and every successful generation
inserts the freshly built icon keyed by the source path; a stale icon from
an earlier success is, however, not removed when a forced regeneration
fails. -/
theorem C10_icon_cache_on_failure (env : ThumbEnv) (st : LoaderState)
    (index : Nat) (skip_cache : Bool) (path : String)
    (htrigger : skip_cache = true ∨ (st.cached_thumbs path = none
        ∧ st.thumbFiles (env.thumbName path) = none)) :
    (generate_thumbnail env (fun p => (st.thumbFiles p).isSome)
        (env.thumbName path) path (env.uriOf path) = none →
      (load_image env [(index, skip_cache, path)] st).cached_thumbs
          = st.cached_thumbs
      ∧ (load_image env [(index, skip_cache, path)] st).thumbFiles
          = st.thumbFiles
      ∧ (load_image env [(index, skip_cache, path)] st).emitted
          = st.emitted ++ [(index, Icon.fail)])
    ∧ (∀ data, generate_thumbnail env (fun p => (st.thumbFiles p).isSome)
        (env.thumbName path) path (env.uriOf path) = some data →
      (load_image env [(index, skip_cache, path)] st).cached_thumbs path
          = some (Icon.thumb (env.thumbName path))
      ∧ (load_image env [(index, skip_cache, path)] st).thumbFiles
            (env.thumbName path) = some data
      ∧ (load_image env [(index, skip_cache, path)] st).emitted
          = st.emitted ++ [(index, Icon.thumb (env.thumbName path))]) := by
  have hstep := loadImageStep_generate env st index skip_cache path htrigger
  have hload : load_image env [(index, skip_cache, path)] st
      = loadImageStep env st (index, skip_cache, path) := rfl
  constructor
  · intro hgen
    rw [hgen] at hstep
    rw [hload, hstep]
    exact ⟨rfl, rfl, rfl⟩
  · intro data hgen
    rw [hgen] at hstep
    rw [hload, hstep]
    dsimp only
    refine ⟨by rw [if_pos rfl], by rw [if_pos rfl], rfl⟩

/-- Witness for C10: a successful generation inserts the icon under the
source path. -/
theorem C10_icon_cache_on_failure_witness :
    (load_image
        { decode := fun _ => some 7, decodeFmt := fun _ _ => none,
          read8 := fun _ => [], suffix := fun _ => ".png",
          exifOrientation := fun _ => none, rotate := fun _ p => p,
          encodeScaledPNG := fun _ => [], mtimeOf := fun _ => 0,
          thumbName := fun _ => "t.png", uriOf := fun _ => [] }
        [(0, true, "a.png")]
        { cached_thumbs := fun _ => none, thumbFiles := fun _ => none,
          emitted := [] }).cached_thumbs "a.png" = some (Icon.thumb "t.png") :=
  ((C10_icon_cache_on_failure
    { decode := fun _ => some 7, decodeFmt := fun _ _ => none,
      read8 := fun _ => [], suffix := fun _ => ".png",
      exifOrientation := fun _ => none, rotate := fun _ p => p,
      encodeScaledPNG := fun _ => [], mtimeOf := fun _ => 0,
      thumbName := fun _ => "t.png", uriOf := fun _ => [] }
    { cached_thumbs := fun _ => none, thumbFiles := fun _ => none, emitted := [] }
    0 true "a.png" (Or.inl rfl)).2 _ rfl).1

/-- C2: for a successfully decoded source, generate_thumbnail writes the
re-encoded PNG with the three tEXt chunks spliced in at byte offset
8 + 12 + firstChunkLength; writing the encoder output as signature, first
chunk (length field, type, payload, CRC) and remainder, the written file is
exactly that stream with the Thumb::MTime, Thumb::URI and Software chunks -
each built as length(4 BE, over key + NUL + value) ++ tEXt ++ key ++ NUL ++
value ++ CRC32(type+key+NUL+value)(4 BE) by png_text_chunk - inserted
between the first chunk and the remainder, in that order; chunk-parsing the
written stream yields those three tEXt chunks right after the first chunk,
and their keyword/value pairs give Thumb::URI mapped byte-for-byte to the
input canonical URI and Thumb::MTime mapped to the decimal ASCII of the
integer (floored) source mtime. -/
theorem C2_thumbnail_chunk_roundtrip (env : ThumbEnv) (fsExists : String → Bool)
    (thumb_path image_path : String) (pixmap : Nat) (fmt : String)
    (sig typ payload crc rest uri_path : List Nat) (n mtimeSec fuel : Nat)
    (parsedRest : List (List Nat × List Nat))
    (hdec : try_to_load_image env image_path = some (pixmap, fmt))
    (hsig : sig.length = 8) (hn : n < 4294967296) (ht : typ.length = 4)
    (hp : payload.length = n) (hc : crc.length = 4)
    (hm : thumbMTimeKey.length + 1 + (decimalBytes mtimeSec).length < 4294967296)
    (hu : thumbURIKey.length + 1 + uri_path.length < 4294967296)
    (hrest : parseChunks fuel rest = some parsedRest)
    (htyp : typ ≠ tEXtType) :
    (∃ finalPixmap, generate_thumbnail env fsExists thumb_path image_path uri_path
      = some (spliceThumbChunks (env.encodeScaledPNG finalPixmap)
          (env.mtimeOf image_path) uri_path))
    ∧ spliceThumbChunks (sig ++ (be32 n ++ (typ ++ (payload ++ (crc ++ rest)))))
        mtimeSec uri_path
      = sig ++ (be32 n ++ (typ ++ (payload ++ (crc
          ++ (png_text_chunk thumbMTimeKey (decimalBytes mtimeSec)
          ++ (png_text_chunk thumbURIKey uri_path
          ++ (png_text_chunk softwareKey softwareValue ++ rest)))))))
    ∧ parseChunks (fuel + 4)
        ((spliceThumbChunks (sig ++ (be32 n ++ (typ ++ (payload ++ (crc ++ rest)))))
          mtimeSec uri_path).drop 8)
      = some ((typ, payload)
          :: (tEXtType, thumbMTimeKey ++ 0 :: decimalBytes mtimeSec)
          :: (tEXtType, thumbURIKey ++ 0 :: uri_path)
          :: (tEXtType, softwareKey ++ 0 :: softwareValue) :: parsedRest)
    ∧ textChunks ((typ, payload)
          :: (tEXtType, thumbMTimeKey ++ 0 :: decimalBytes mtimeSec)
          :: (tEXtType, thumbURIKey ++ 0 :: uri_path)
          :: (tEXtType, softwareKey ++ 0 :: softwareValue) :: parsedRest)
      = (thumbMTimeKey, decimalBytes mtimeSec)
          :: (thumbURIKey, uri_path)
          :: (softwareKey, softwareValue) :: textChunks parsedRest := by
  have hfcl : readBE32 ((sig ++ (be32 n ++ (typ ++ (payload ++ (crc ++ rest))))).drop 8)
      = n := by
    rw [← hsig, List.drop_left]
    exact readBE32_be32 n _ hn
  have hpre : sig ++ (be32 n ++ (typ ++ (payload ++ (crc ++ rest))))
      = (sig ++ be32 n ++ typ ++ payload ++ crc) ++ rest := by
    simp [List.append_assoc]
  have hprelen : (sig ++ be32 n ++ typ ++ payload ++ crc).length = 8 + 12 + n := by
    simp [List.length_append, hsig, be32, ht, hp, hc]
    omega
  have htake : (sig ++ (be32 n ++ (typ ++ (payload ++ (crc ++ rest))))).take (8 + 12 + n)
      = sig ++ be32 n ++ typ ++ payload ++ crc := by
    rw [hpre, ← hprelen, List.take_left]
  have hdropOff : (sig ++ (be32 n ++ (typ ++ (payload ++ (crc ++ rest))))).drop (8 + 12 + n)
      = rest := by
    rw [hpre, ← hprelen, List.drop_left]
  have hsplice : spliceThumbChunks (sig ++ (be32 n ++ (typ ++ (payload ++ (crc ++ rest)))))
        mtimeSec uri_path
      = sig ++ (be32 n ++ (typ ++ (payload ++ (crc
          ++ (png_text_chunk thumbMTimeKey (decimalBytes mtimeSec)
          ++ (png_text_chunk thumbURIKey uri_path
          ++ (png_text_chunk softwareKey softwareValue ++ rest))))))) := by
    rw [spliceThumbChunks]
    rw [hfcl, htake, hdropOff]
    simp [List.append_assoc]
  refine ⟨?_, hsplice, ?_, ?_⟩
  · rw [generate_thumbnail, hdec]
    exact ⟨_, rfl⟩
  · rw [hsplice]
    have hdrop : (sig ++ (be32 n ++ (typ ++ (payload ++ (crc
          ++ (png_text_chunk thumbMTimeKey (decimalBytes mtimeSec)
          ++ (png_text_chunk thumbURIKey uri_path
          ++ (png_text_chunk softwareKey softwareValue ++ rest)))))))).drop 8
        = be32 n ++ (typ ++ (payload ++ (crc
          ++ (png_text_chunk thumbMTimeKey (decimalBytes mtimeSec)
          ++ (png_text_chunk thumbURIKey uri_path
          ++ (png_text_chunk softwareKey softwareValue ++ rest)))))) := by
      rw [← hsig, List.drop_left]
    rw [hdrop]
    rw [show fuel + 4 = fuel + 3 + 1 from rfl]
    rw [parseChunks_chunk (fuel + 3) n typ payload crc _ hn ht hp hc]
    rw [show fuel + 3 = fuel + 2 + 1 from rfl]
    rw [parseChunks_text_chunk (fuel + 2) thumbMTimeKey (decimalBytes mtimeSec) _ hm]
    rw [show fuel + 2 = fuel + 1 + 1 from rfl]
    rw [parseChunks_text_chunk (fuel + 1) thumbURIKey uri_path _ hu]
    rw [parseChunks_text_chunk fuel softwareKey softwareValue rest (by decide)]
    rw [hrest]
  · have s1 : splitAtNul (thumbMTimeKey ++ 0 :: decimalBytes mtimeSec)
        = some (thumbMTimeKey, decimalBytes mtimeSec) :=
      splitAtNul_append _ _ (by decide)
    have s2 : splitAtNul (thumbURIKey ++ 0 :: uri_path)
        = some (thumbURIKey, uri_path) :=
      splitAtNul_append _ _ (by decide)
    have s3 : splitAtNul (softwareKey ++ 0 :: softwareValue)
        = some (softwareKey, softwareValue) :=
      splitAtNul_append _ _ (by decide)
    simp [textChunks, List.filterMap_cons, htyp, s1, s2, s3]

/-- Witness for C2: a concrete splice of the three chunks into a minimal
chunk stream, chunk-parsed back. -/
theorem C2_thumbnail_chunk_roundtrip_witness :
    parseChunks (0 + 4)
      ((spliceThumbChunks ([137, 80, 78, 71, 13, 10, 26, 10]
          ++ (be32 0 ++ (strBytes "IHDR" ++ (([] : List Nat)
          ++ ([0, 0, 0, 0] ++ ([] : List Nat)))))) 57 (strBytes "file:///a")).drop 8)
      = some ((strBytes "IHDR", ([] : List Nat))
          :: (tEXtType, thumbMTimeKey ++ 0 :: decimalBytes 57)
          :: (tEXtType, thumbURIKey ++ 0 :: strBytes "file:///a")
          :: (tEXtType, softwareKey ++ 0 :: softwareValue) :: []) :=
  (C2_thumbnail_chunk_roundtrip
    { decode := fun _ => some 7, decodeFmt := fun _ _ => none,
      read8 := fun _ => [], suffix := fun _ => ".png",
      exifOrientation := fun _ => none, rotate := fun _ p => p,
      encodeScaledPNG := fun _ => [], mtimeOf := fun _ => 57,
      thumbName := fun _ => "t.png", uriOf := fun _ => strBytes "file:///a" }
    (fun _ => false) "t.png" "a.png" 7 ".png"
    [137, 80, 78, 71, 13, 10, 26, 10] (strBytes "IHDR") [] [0, 0, 0, 0] []
    (strBytes "file:///a") 0 57 0 []
    rfl (by decide) (by decide) (by decide) rfl (by decide)
    (by decide) (by decide) rfl (by decide)).2.2.1

